import Mathlib

/-!
Verification of the adapter plugin management subsystem of the indexao
repository (file src/indexao/plugin_manager.py), against its
natural-language specification.

Shallow embedding conventions:

* Python dicts that preserve insertion order are embedded as association
  lists over String keys; writing an existing key updates it in place,
  writing a fresh key appends at the end (CPython dict semantics).
* The three fixed top-level dicts of PluginManager (registry, active,
  instances) have exactly the keys ocr / translator / search for the whole
  process lifetime (they are created in the constructor and only their
  inner dicts are ever written), so they are embedded as total functions
  on an enumerated Kind type, with parseKind playing the role of the
  membership test on the outer key set.
* Python object identity for adapter instances is embedded by tagging each
  constructed instance with a fresh natural number drawn from a counter in
  the manager state; two references are identical exactly when the tags
  are equal.
* An adapter class is embedded by the data the manager inspects: the set
  of attribute names it exposes (for hasattr), a class identifier, and
  whether constructing it raises (and with what message).
* Raised exceptions are embedded as an error value returned next to the
  post state; the post state carries every mutation performed before the
  raise, exactly as the in-place mutations of the Python object persist
  when an exception propagates.
* datetime.now() is embedded as a monotone counter in the state; only the
  presence and order of history events matter to the specification.
-/

set_option autoImplicit false

namespace Indexao

/-- The closed set of capability kinds: the keys of the registry,
active-slot and instance-cache dicts built in PluginManager constructor. -/
inductive Kind where
  | ocr
  | translator
  | search
deriving DecidableEq, Repr

/-- Membership of a string in the fixed key set of the manager's dicts
(the checks written as adapter_type not in self dot registry and as
adapter_type not in the literal list of the three kind strings agree,
since the dict keys never change after construction). -/
def parseKind (t : String) : Option Kind :=
  if t = "ocr" then some Kind.ocr
  else if t = "translator" then some Kind.translator
  else if t = "search" then some Kind.search
  else none

/-- An adapter instance: instId embeds Python object identity (fresh per
construction), classId records which class constructed it. -/
structure Instance where
  instId : Nat
  classId : Nat
deriving DecidableEq, Repr

/-- An adapter class, as seen by the manager: its name, an identifier,
the attribute names it exposes (what hasattr sees), and whether calling
the constructor raises (some message) or succeeds (none). -/
structure AdapterClass where
  className : String
  classId : Nat
  methods : List String
  initException : Option String
deriving DecidableEq, Repr

/-- A switch-history event, the dict appended to the switch history:
keys type, from, to, timestamp. -/
structure SwitchEvent where
  type : String
  fromName : Option String
  toName : String
  timestamp : Nat
deriving DecidableEq, Repr

/-- The exceptions the subsystem raises. Constructors carry the data the
Python f-string messages are built from: loadErrorNotRegistered embeds
the PluginLoadError whose message lists the available names,
loadErrorInstantiation the PluginLoadError raised from the construction
failure (cause is the wrapped underlying message), loadError the other
PluginLoadError cases, validationError the PluginValidationError whose
message joins every missing method, managerError the base
PluginManagerError, valueError the plain ValueError of load_adapter. -/
inductive PMError where
  | managerError (msg : String)
  | loadErrorNotRegistered (kind name : String) (available : List String)
  | loadErrorInstantiation (kind name : String) (cause : String)
  | loadError (msg : String)
  | validationError (missing : List String) (required : List String)
  | valueError (msg : String)
deriving DecidableEq, Repr

/-- Association-list lookup, embedding Python dict indexing / dict.get. -/
def alookup {α : Type} (l : List (String × α)) (k : String) : Option α :=
  match l with
  | [] => none
  | (k', v) :: t => if k' = k then some v else alookup t k

/-- Association-list write, embedding d[k] = v on an insertion-ordered
Python dict: an existing key keeps its position, a new key is appended. -/
def ainsert {α : Type} (l : List (String × α)) (k : String) (v : α) :
    List (String × α) :=
  match l with
  | [] => [(k, v)]
  | (k', v') :: t => if k' = k then (k, v) :: t else (k', v') :: ainsert t k v

/-- The key list of a dict, in insertion order: list(d.keys()). -/
def akeys {α : Type} (l : List (String × α)) : List String :=
  l.map Prod.fst

/-- One adapter's configuration table, the leaf dict found at
plugins.kind.name in the configuration tree. Values are opaque strings. -/
abbrev AdapterConfig := List (String × String)

/-- The externally supplied configuration tree, as navigated by
get_adapter_config: an optional plugins table keyed by kind string, then
by adapter name. none embeds a root dict with no plugins key. -/
structure PMConfig where
  plugins : Option (List (String × List (String × AdapterConfig)))
deriving Repr

/-- The PluginManager state: configuration, registry, active slots,
instance cache, switch history, plus the identity counter (instance
allocation) and the clock (timestamps). -/
structure ManagerState where
  config : PMConfig
  registry : Kind → List (String × AdapterClass)
  active : Kind → Option Instance
  instances : Kind → List (String × Instance)
  switchHistory : List SwitchEvent
  nextId : Nat
  clock : Nat

/-- The state built by the PluginManager constructor: empty registry,
empty slots, empty cache, no history. -/
def initState (c : PMConfig) : ManagerState :=
  { config := c
    registry := fun _ => []
    active := fun _ => none
    instances := fun _ => []
    switchHistory := []
    nextId := 0
    clock := 0 }

/-- Pointwise update of a per-kind table. -/
def updKind {α : Type} (f : Kind → α) (k : Kind) (v : α) : Kind → α :=
  fun k' => if k' = k then v else f k'

/-- The hard-coded protocol_methods table of validate_protocol. -/
def requiredMethods : Kind → List String
  | Kind.ocr => ["name", "supported_languages", "process_image"]
  | Kind.translator => ["name", "supported_languages", "translate", "translate_batch"]
  | Kind.search => ["name", "index_document", "index_batch", "search", "delete_document"]

/-- The missing-method scan of validate_protocol: every required method
the class lacks, in the order of the required list. -/
def missingMethods (cls : AdapterClass) (k : Kind) : List String :=
  (requiredMethods k).filter (fun m => !(cls.methods.contains m))

/-- Embedding of validate_protocol. The adapter protocols import
succeeds in this repository (the three base modules exist under
src/indexao/adapters), so PROTOCOLS_AVAILABLE is true and the check
runs. The later constructor-signature probe sits inside a try/except
that only logs, and inspect.signature always reports at least the self
parameter, so it can never fail the validation; the outcome is decided
by the missing-method scan alone. -/
def validateProtocol (cls : AdapterClass) (k : Kind) : Option PMError :=
  let missing := missingMethods cls k
  if missing.isEmpty then none
  else some (PMError.validationError missing (requiredMethods k))

/-- Embedding of register: invalid kind raises PluginManagerError;
with validate, a failed protocol check raises PluginValidationError and
leaves the registry untouched; otherwise the class is written under
(kind, name), overwriting any previous class for that name. -/
def register (s : ManagerState) (t n : String) (cls : AdapterClass)
    (validate : Bool) : Option PMError × ManagerState :=
  match parseKind t with
  | none => (some (PMError.managerError ("Invalid adapter type: " ++ t)), s)
  | some k =>
    match (if validate then validateProtocol cls k else none) with
    | some err => (some err, s)
    | none =>
      (none, { s with registry := updKind s.registry k (ainsert (s.registry k) n cls) })

/-- Embedding of get_registered: a copy of the name-to-class dict. -/
def get_registered (s : ManagerState) (t : String) : List (String × AdapterClass) :=
  match parseKind t with
  | none => []
  | some k => s.registry k

/-- Embedding of find_instance_name: first cached name, in insertion
order, whose instance is identical (the is test) to the given one. -/
def findInstanceName (s : ManagerState) (k : Kind) (inst : Instance) :
    Option String :=
  ((s.instances k).find? (fun p => p.2.instId == inst.instId)).map Prod.fst

/-- The cleanup-and-history phase of switch (the body of the
if previous_adapter block): when the kind's slot is occupied, the
previous adapter's close hook is invoked with any failure swallowed (no
effect on manager state), and one history event is appended; when the
slot is empty, nothing happens. Adapter instances are ordinary objects,
hence truthy, so the slot test is exactly occupancy. -/
def cleanupPhase (s : ManagerState) (t : String) (k : Kind) (n : String) :
    ManagerState :=
  match s.active k with
  | none => s
  | some prev =>
    { s with
      switchHistory := s.switchHistory ++
        [{ type := t, fromName := findInstanceName s k prev, toName := n,
           timestamp := s.clock }]
      clock := s.clock + 1 }

/-- Embedding of get_adapter_config: PluginManagerError for a kind
outside the closed set, otherwise navigate plugins.kind.name with empty
dicts as defaults at every hop; a missing or empty leaf yields the empty
dict, a present leaf is returned as dict(found), a fresh dict with the
same entries (the copy is value-identical; only its Python identity is
new). -/
def get_adapter_config (c : PMConfig) (t n : String) :
    Except PMError AdapterConfig :=
  match parseKind t with
  | none => Except.error (PMError.managerError ("Invalid adapter type: " ++ t))
  | some _ =>
    let plugins_config := c.plugins.getD []
    let type_config := (alookup plugins_config t).getD []
    let adapter_config := (alookup type_config n).getD []
    if adapter_config.isEmpty then Except.ok []
    else Except.ok adapter_config

/-- Embedding of switch. The error value carries what the raised
exception's message is built from; the returned state carries every
mutation performed before the raise (in particular the history event
appended by the cleanup phase survives a construction failure). -/
def switch (s : ManagerState) (t n : String) : Option PMError × ManagerState :=
  match parseKind t with
  | none => (some (PMError.managerError ("Invalid adapter type: " ++ t)), s)
  | some k =>
    match alookup (s.registry k) n with
    | none =>
      (some (PMError.loadErrorNotRegistered t n (akeys (s.registry k))), s)
    | some cls =>
      let s1 := cleanupPhase s t k n
      match alookup (s1.instances k) n with
      | some inst =>
        (none, { s1 with active := updKind s1.active k (some inst) })
      | none =>
        match cls.initException with
        | some exc => (some (PMError.loadErrorInstantiation t n exc), s1)
        | none =>
          let inst : Instance := { instId := s1.nextId, classId := cls.classId }
          (none, { s1 with
            instances := updKind s1.instances k (ainsert (s1.instances k) n inst)
            nextId := s1.nextId + 1
            active := updKind s1.active k (some inst) })

/-- Embedding of get_active: dict.get on the active slots, none for a
key outside the fixed key set. -/
def get_active (s : ManagerState) (t : String) : Option Instance :=
  match parseKind t with
  | none => none
  | some k => s.active k

/-- Embedding of list_available: empty list for a kind outside the fixed
key set, otherwise the registered names in insertion order. -/
def list_available (s : ManagerState) (t : String) : List String :=
  match parseKind t with
  | none => []
  | some k => akeys (s.registry k)

/-- Embedding of get_switch_history, optionally filtered by kind. -/
def get_switch_history (s : ManagerState) (t : Option String) :
    List SwitchEvent :=
  match t with
  | none => s.switchHistory
  | some ty => s.switchHistory.filter (fun e => e.type == ty)

/-- A Python module as the loader inspects it: the classes defined
locally in the module, enumerated in the order inspect.getmembers
yields (alphabetical by class name). -/
structure PyModule where
  classes : List AdapterClass
deriving Repr

/-- The import environment: what importlib.import_module resolves a
module path to; none embeds an ImportError / ModuleNotFoundError (or a
failure while executing the module body, which the same handler area
turns into the same fallback behaviour). -/
abbrev ModuleEnv := String → Option PyModule

/-- The module path the loader builds: indexao.adapters.kind.name. -/
def moduleNameFor (t n : String) : String :=
  "indexao.adapters." ++ t ++ "." ++ n

/-- Python str.endswith, on the character lists of the strings. -/
def strEndsWith (s suffix : String) : Bool :=
  suffix.data.isSuffixOf s.data

/-- The kind-specific hallmark method the class-selection heuristic
prefers. -/
def hallmarkMethod : Kind → String
  | Kind.ocr => "process_image"
  | Kind.translator => "translate"
  | Kind.search => "index_document"

/-- Embedding of find_adapter_class: keep the locally defined classes
whose name ends in Adapter, OCR or Translator; none means no candidate;
otherwise prefer the first candidate exposing the hallmark method for
the kind (protocols are available in this repository, so the preference
pass runs), falling back to the first candidate. -/
def findAdapterClass (m : PyModule) (k : Kind) : Option AdapterClass :=
  let candidates := m.classes.filter (fun c =>
    strEndsWith c.className "Adapter" || strEndsWith c.className "OCR" ||
      strEndsWith c.className "Translator")
  match candidates with
  | [] => none
  | _ =>
    match candidates.find? (fun c => c.methods.contains (hallmarkMethod k)) with
    | some c => some c
    | none => candidates.head?

/-- Outcome of one load attempt: a constructed instance plus the post
state, or a failure message plus the state as mutated so far. -/
inductive LoadAttempt where
  | ok (inst : Instance) (s : ManagerState)
  | fail (msg : String) (s : ManagerState)

/-- One attempt of load_adapter's body for a fixed (kind, name): import
the module, select the class, resolve the configuration, construct the
instance, and on auto_register register the class (with validation) and
install the instance into the cache and the active slot. Every failure
along the way — import error, no candidate class, constructor raise,
or an exception out of register — lands in the same except handlers of
the source and is reported as fail with the message the handler builds
(the state keeps the mutations performed up to the raise; none of the
failure points mutates the registry, cache or slots). -/
def load_attempt (s : ManagerState) (env : ModuleEnv) (k : Kind)
    (t n : String) (autoRegister : Bool) : LoadAttempt :=
  let moduleName := moduleNameFor t n
  match env moduleName with
  | none => LoadAttempt.fail ("Failed to import " ++ moduleName) s
  | some m =>
    match findAdapterClass m k with
    | none =>
      LoadAttempt.fail
        ("Failed to load " ++ t ++ "/" ++ n ++ ": No adapter class found in "
          ++ moduleName) s
    | some cls =>
      let _config := get_adapter_config s.config t n
      match cls.initException with
      | some e =>
        LoadAttempt.fail
          ("Failed to load " ++ t ++ "/" ++ n ++ ": Failed to instantiate "
            ++ cls.className ++ ": " ++ e) s
      | none =>
        let inst : Instance := { instId := s.nextId, classId := cls.classId }
        let s1 := { s with nextId := s.nextId + 1 }
        if autoRegister then
          match register s1 t n cls true with
          | (some _err, s2) =>
            LoadAttempt.fail
              ("Failed to load " ++ t ++ "/" ++ n ++ ": registration failed") s2
          | (none, s2) =>
            LoadAttempt.ok inst
              { s2 with
                instances := updKind s2.instances k (ainsert (s2.instances k) n inst)
                active := updKind s2.active k (some inst) }
        else LoadAttempt.ok inst s1

/-- Embedding of load_adapter. An invalid kind raises ValueError. The
source's fallback is a single recursive call with name mock and
fallback_to_mock false; since a disabled fallback makes the callee one
plain attempt whose failure raises PluginLoadError, that call is laid
out here as a second load_attempt whose failure becomes the final
error. A failure with fallback disabled (or with name already mock)
raises PluginLoadError directly. -/
def load_adapter (s : ManagerState) (env : ModuleEnv) (t n : String)
    (autoRegister fallbackToMock : Bool) :
    Except PMError Instance × ManagerState :=
  match parseKind t with
  | none => (Except.error (PMError.valueError ("Invalid adapter_type: " ++ t)), s)
  | some k =>
    match load_attempt s env k t n autoRegister with
    | LoadAttempt.ok inst s1 => (Except.ok inst, s1)
    | LoadAttempt.fail msg s1 =>
      if fallbackToMock = true ∧ n ≠ "mock" then
        match load_attempt s1 env k t "mock" autoRegister with
        | LoadAttempt.ok inst s2 => (Except.ok inst, s2)
        | LoadAttempt.fail msg2 s2 => (Except.error (PMError.loadError msg2), s2)
      else (Except.error (PMError.loadError msg), s1)

/-! ### Basic lemmas about the embedded operations -/

theorem updKind_same {α : Type} (f : Kind → α) (k : Kind) (v : α) :
    updKind f k v k = v := by
  simp [updKind]

theorem updKind_other {α : Type} (f : Kind → α) (k k' : Kind) (v : α)
    (h : k' ≠ k) : updKind f k v k' = f k' := by
  simp [updKind, h]

theorem alookup_ainsert {α : Type} (l : List (String × α)) (k k' : String)
    (v : α) :
    alookup (ainsert l k v) k' = if k' = k then some v else alookup l k' := by
  induction l with
  | nil =>
    by_cases h : k' = k
    · subst h
      simp [ainsert, alookup]
    · have h2 : ¬(k = k') := fun hh => h hh.symm
      simp [ainsert, alookup, h, h2]
  | cons p t ih =>
    obtain ⟨k1, v1⟩ := p
    by_cases h1 : k1 = k
    · subst h1
      by_cases h2 : k' = k1
      · subst h2
        simp [ainsert, alookup]
      · have h2' : ¬(k1 = k') := fun hh => h2 hh.symm
        simp [ainsert, alookup, h2, h2']
    · by_cases h2 : k1 = k'
      · subst h2
        simp [ainsert, alookup, h1]
      · simp [ainsert, alookup, h1, h2, ih]

theorem cleanupPhase_registry (s : ManagerState) (t : String) (k : Kind)
    (n : String) : (cleanupPhase s t k n).registry = s.registry := by
  unfold cleanupPhase
  cases s.active k <;> rfl

theorem cleanupPhase_active (s : ManagerState) (t : String) (k : Kind)
    (n : String) : (cleanupPhase s t k n).active = s.active := by
  unfold cleanupPhase
  cases s.active k <;> rfl

theorem cleanupPhase_instances (s : ManagerState) (t : String) (k : Kind)
    (n : String) : (cleanupPhase s t k n).instances = s.instances := by
  unfold cleanupPhase
  cases s.active k <;> rfl

theorem cleanupPhase_nextId (s : ManagerState) (t : String) (k : Kind)
    (n : String) : (cleanupPhase s t k n).nextId = s.nextId := by
  unfold cleanupPhase
  cases s.active k <;> rfl

theorem cleanupPhase_config (s : ManagerState) (t : String) (k : Kind)
    (n : String) : (cleanupPhase s t k n).config = s.config := by
  unfold cleanupPhase
  cases s.active k <;> rfl

theorem cleanupPhase_history (s : ManagerState) (t : String) (k : Kind)
    (n : String) :
    (cleanupPhase s t k n).switchHistory = s.switchHistory ++
      (match s.active k with
       | none => []
       | some prev =>
         [{ type := t, fromName := findInstanceName s k prev, toName := n,
            timestamp := s.clock }]) := by
  unfold cleanupPhase
  cases s.active k <;> simp

/-- Behaviour of switch on a kind outside the closed set. -/
theorem switch_invalid_kind (s : ManagerState) (t n : String)
    (hp : parseKind t = none) :
    switch s t n =
      (some (PMError.managerError ("Invalid adapter type: " ++ t)), s) := by
  simp [switch, hp]

/-- Behaviour of switch on an unregistered name. -/
theorem switch_unregistered (s : ManagerState) (t n : String) (k : Kind)
    (hp : parseKind t = some k) (hr : alookup (s.registry k) n = none) :
    switch s t n =
      (some (PMError.loadErrorNotRegistered t n (akeys (s.registry k))), s) := by
  simp [switch, hp, hr]

/-- Behaviour of switch when the target instance is already cached. -/
theorem switch_cached (s : ManagerState) (t n : String) (k : Kind)
    (cls : AdapterClass) (inst : Instance)
    (hp : parseKind t = some k) (hr : alookup (s.registry k) n = some cls)
    (hc : alookup (s.instances k) n = some inst) :
    switch s t n =
      (none, { cleanupPhase s t k n with
        active := updKind (cleanupPhase s t k n).active k (some inst) }) := by
  simp [switch, hp, hr, cleanupPhase_instances, hc]

/-- Behaviour of switch when construction of the fresh instance raises. -/
theorem switch_construct_fail (s : ManagerState) (t n : String) (k : Kind)
    (cls : AdapterClass) (exc : String)
    (hp : parseKind t = some k) (hr : alookup (s.registry k) n = some cls)
    (hc : alookup (s.instances k) n = none)
    (he : cls.initException = some exc) :
    switch s t n =
      (some (PMError.loadErrorInstantiation t n exc), cleanupPhase s t k n) := by
  simp [switch, hp, hr, cleanupPhase_instances, hc, he]

/-- Behaviour of switch when a fresh instance is constructed. -/
theorem switch_construct_ok (s : ManagerState) (t n : String) (k : Kind)
    (cls : AdapterClass)
    (hp : parseKind t = some k) (hr : alookup (s.registry k) n = some cls)
    (hc : alookup (s.instances k) n = none)
    (he : cls.initException = none) :
    switch s t n =
      (none, { cleanupPhase s t k n with
        instances := updKind s.instances k
          (ainsert (s.instances k) n
            { instId := s.nextId, classId := cls.classId })
        nextId := s.nextId + 1
        active := updKind (cleanupPhase s t k n).active k
          (some { instId := s.nextId, classId := cls.classId }) }) := by
  simp [switch, hp, hr, cleanupPhase_instances, hc, he, cleanupPhase_nextId]

/-- Any switch that passes the registration check leaves the history as
the cleanup phase produced it, whether the rest succeeds or fails. -/
theorem switch_history_eq (s : ManagerState) (t n : String) (k : Kind)
    (cls : AdapterClass)
    (hp : parseKind t = some k) (hr : alookup (s.registry k) n = some cls) :
    ((switch s t n).2).switchHistory = (cleanupPhase s t k n).switchHistory := by
  cases hc : alookup (s.instances k) n with
  | some inst => rw [switch_cached s t n k cls inst hp hr hc]
  | none =>
    cases he : cls.initException with
    | some exc => rw [switch_construct_fail s t n k cls exc hp hr hc he]
    | none => rw [switch_construct_ok s t n k cls hp hr hc he]

/-- What a successful switch guarantees: the kind parses, the name is
registered, the active slot now holds an instance which is also the
cache entry for (kind, name), the registry is untouched, and every
pre-existing cache entry survives unchanged. -/
theorem switch_ok_spec (s : ManagerState) (t n : String)
    (h : (switch s t n).1 = none) :
    ∃ k cls inst, parseKind t = some k ∧
      alookup (s.registry k) n = some cls ∧
      alookup (((switch s t n).2).instances k) n = some inst ∧
      get_active ((switch s t n).2) t = some inst ∧
      ((switch s t n).2).registry = s.registry ∧
      ((switch s t n).2).nextId =
        (if alookup (s.instances k) n = none then s.nextId + 1 else s.nextId) ∧
      (∀ k' n' i, alookup (s.instances k') n' = some i →
        alookup (((switch s t n).2).instances k') n' = some i) := by
  cases hp : parseKind t with
  | none =>
    rw [switch_invalid_kind s t n hp] at h
    simp at h
  | some k =>
    cases hr : alookup (s.registry k) n with
    | none =>
      rw [switch_unregistered s t n k hp hr] at h
      simp at h
    | some cls =>
      cases hc : alookup (s.instances k) n with
      | some inst =>
        refine ⟨k, cls, inst, rfl, hr, ?_⟩
        rw [switch_cached s t n k cls inst hp hr hc]
        simp [cleanupPhase_instances, cleanupPhase_registry, cleanupPhase_nextId,
          get_active, hp, updKind_same, hc]
      | none =>
        cases he : cls.initException with
        | some exc =>
          rw [switch_construct_fail s t n k cls exc hp hr hc he] at h
          simp at h
        | none =>
          refine ⟨k, cls, { instId := s.nextId, classId := cls.classId },
            rfl, hr, ?_⟩
          rw [switch_construct_ok s t n k cls hp hr hc he]
          refine ⟨?_, ?_, ?_, ?_, ?_⟩
          · simp [updKind_same, alookup_ainsert]
          · simp [get_active, hp, updKind_same]
          · simp [cleanupPhase_registry]
          · simp [hc]
          · intro k' n' i hi
            by_cases hk : k' = k
            · subst hk
              simp only [updKind_same]
              rw [alookup_ainsert]
              have hne : ¬(n' = n) := by
                intro hh
                rw [hh] at hi
                rw [hi] at hc
                exact Option.noConfusion hc
              simp [hne, hi]
            · simp only [updKind_other _ _ _ _ hk]
              exact hi

/-- A failed primary attempt with fallback enabled behaves exactly as
one further call for the mock name with fallback disabled: the single
fallback hop of load_adapter. -/
theorem load_adapter_fallback_hop (s s1 : ManagerState) (env : ModuleEnv)
    (t n : String) (k : Kind) (ar : Bool) (msg : String)
    (hp : parseKind t = some k) (hn : n ≠ "mock")
    (hf : load_attempt s env k t n ar = LoadAttempt.fail msg s1) :
    load_adapter s env t n ar true = load_adapter s1 env t "mock" ar false := by
  simp only [load_adapter, hp, hf]
  cases h2 : load_attempt s1 env k t "mock" ar with
  | ok inst s2 => simp [hn, h2]
  | fail msg2 s2 => simp [hn, h2]

/-- A load attempt whose module import fails. -/
theorem load_attempt_import_fail (s : ManagerState) (env : ModuleEnv)
    (k : Kind) (t n : String) (ar : Bool)
    (hm : env (moduleNameFor t n) = none) :
    load_attempt s env k t n ar =
      LoadAttempt.fail ("Failed to import " ++ moduleNameFor t n) s := by
  simp [load_attempt, hm]

/-- A load attempt whose module resolves, whose class selection and
construction succeed, and whose registration validates: the attempt
returns the freshly constructed instance and, with auto_register,
installs it into the registry, the cache and the active slot. -/
theorem load_attempt_ok (s : ManagerState) (env : ModuleEnv) (k : Kind)
    (t n : String) (ar : Bool) (m : PyModule) (cls : AdapterClass)
    (hp : parseKind t = some k)
    (hm : env (moduleNameFor t n) = some m)
    (hfind : findAdapterClass m k = some cls)
    (hinit : cls.initException = none)
    (hval : missingMethods cls k = []) :
    ∃ s2, load_attempt s env k t n ar =
      LoadAttempt.ok { instId := s.nextId, classId := cls.classId } s2 := by
  cases ar with
  | false =>
    refine ⟨{ s with nextId := s.nextId + 1 }, ?_⟩
    simp [load_attempt, hm, hfind, hinit]
  | true =>
    have hv : validateProtocol cls k = none := by
      simp [validateProtocol, hval]
    refine ⟨{ config := s.config
              registry := updKind s.registry k (ainsert (s.registry k) n cls)
              active := updKind s.active k
                (some { instId := s.nextId, classId := cls.classId })
              instances := updKind s.instances k (ainsert (s.instances k) n
                { instId := s.nextId, classId := cls.classId })
              switchHistory := s.switchHistory
              nextId := s.nextId + 1
              clock := s.clock }, ?_⟩
    simp only [load_attempt, hm, hfind, hinit]
    simp only [register, hp, hv]
    rfl

/-! ### Concrete fixtures used by witnesses and counterexamples -/

/-- An empty configuration tree (no plugins table). -/
def cfgEmpty : PMConfig := { plugins := none }

/-- A configuration tree holding one entry at plugins.ocr.tesseract. -/
def cfgSample : PMConfig :=
  { plugins := some [("ocr", [("tesseract", [("dpi", "300")])])] }

/-- A well-behaved OCR adapter class exposing every required method. -/
def mockOCRClass : AdapterClass :=
  { className := "MockOCRAdapter", classId := 7,
    methods := ["name", "supported_languages", "process_image"],
    initException := none }

/-- A second well-behaved OCR adapter class, distinct from the first. -/
def altOCRClass : AdapterClass :=
  { className := "AltOCRAdapter", classId := 8,
    methods := ["name", "supported_languages", "process_image"],
    initException := none }

/-- An OCR adapter class whose constructor raises. -/
def failingOCRClass : AdapterClass :=
  { className := "BrokenOCRAdapter", classId := 9,
    methods := ["name", "supported_languages", "process_image"],
    initException := some "boom" }

/-- An OCR adapter class exposing only one of the required methods. -/
def incompleteOCRClass : AdapterClass :=
  { className := "IncompleteOCRAdapter", classId := 10,
    methods := ["name"],
    initException := none }

/-- Manager state with mockOCRClass registered under (ocr, mock). -/
def regMockState : ManagerState :=
  (register (initState cfgEmpty) "ocr" "mock" mockOCRClass true).2

/-- regMockState with altOCRClass additionally registered as alt. -/
def regMockAltState : ManagerState :=
  (register regMockState "ocr" "alt" altOCRClass true).2

/-- regMockState with failingOCRClass additionally registered as bad. -/
def regMockBadState : ManagerState :=
  (register regMockState "ocr" "bad" failingOCRClass true).2

/-- regMockBadState after a successful switch to mock: occupied slot. -/
def activeMockState : ManagerState :=
  (switch regMockBadState "ocr" "mock").2

/-- An import environment where only the ocr mock module resolves. -/
def envMockOnly : ModuleEnv := fun m =>
  if m = "indexao.adapters.ocr.mock" then some { classes := [mockOCRClass] }
  else none

/-- An import environment where no module resolves. -/
def envNothing : ModuleEnv := fun _ => none

/-! ### Claim theorems -/

/-- C3: if construction of a not-yet-cached instance fails during
switch(kind, name), the call raises a PluginLoadError carrying the
underlying cause, and both the active slots and the instance cache are
exactly what they were before the call (the previously active instance,
or an empty slot, is untouched). -/
theorem C3_construct_failure_leaves_slot (s : ManagerState) (t n : String)
    (k : Kind) (cls : AdapterClass) (exc : String)
    (hp : parseKind t = some k)
    (hr : alookup (s.registry k) n = some cls)
    (hc : alookup (s.instances k) n = none)
    (he : cls.initException = some exc) :
    (switch s t n).1 = some (PMError.loadErrorInstantiation t n exc) ∧
    ((switch s t n).2).active = s.active ∧
    ((switch s t n).2).instances = s.instances := by
  rw [switch_construct_fail s t n k cls exc hp hr hc he]
  exact ⟨rfl, cleanupPhase_active s t k n, cleanupPhase_instances s t k n⟩

/-- Witness for C3 at a concrete state with an occupied slot and a
failing class registered as bad. -/
theorem C3_construct_failure_leaves_slot_witness :
    (parseKind "ocr" = some Kind.ocr ∧
     alookup (activeMockState.registry Kind.ocr) "bad" = some failingOCRClass ∧
     alookup (activeMockState.instances Kind.ocr) "bad" = none ∧
     failingOCRClass.initException = some "boom") ∧
    ((switch activeMockState "ocr" "bad").1 =
      some (PMError.loadErrorInstantiation "ocr" "bad" "boom") ∧
     ((switch activeMockState "ocr" "bad").2).active = activeMockState.active ∧
     ((switch activeMockState "ocr" "bad").2).instances =
       activeMockState.instances) :=
  ⟨⟨by decide, by decide, by decide, by decide⟩,
   C3_construct_failure_leaves_slot activeMockState "ocr" "bad" Kind.ocr
     failingOCRClass "boom" (by decide) (by decide) (by decide) (by decide)⟩

/-- C6: register with validation, on a valid kind, fails with a
PluginValidationError that carries every missing required operation (in
required order, not only the first) exactly when some required operation
is missing, and otherwise succeeds and maps (kind, name) to the given
class. -/
theorem C6_register_validation (s : ManagerState) (t n : String) (k : Kind)
    (cls : AdapterClass) (hp : parseKind t = some k) :
    (missingMethods cls k ≠ [] →
      register s t n cls true =
        (some (PMError.validationError (missingMethods cls k)
          (requiredMethods k)), s)) ∧
    (missingMethods cls k = [] →
      (register s t n cls true).1 = none ∧
      alookup (((register s t n cls true).2).registry k) n = some cls) := by
  constructor
  · intro hne
    cases hmm : missingMethods cls k with
    | nil => exact absurd hmm hne
    | cons a l => simp [register, hp, validateProtocol, hmm]
  · intro hmiss
    constructor
    · simp [register, hp, validateProtocol, hmiss]
    · simp [register, hp, validateProtocol, hmiss, updKind_same, alookup_ainsert]

/-- Witness for C6: a class exposing only name is rejected naming both
missing methods; a complete class registers successfully. -/
theorem C6_register_validation_witness :
    (parseKind "ocr" = some Kind.ocr ∧
     missingMethods incompleteOCRClass Kind.ocr =
       ["supported_languages", "process_image"] ∧
     missingMethods mockOCRClass Kind.ocr = []) ∧
    register (initState cfgEmpty) "ocr" "inc" incompleteOCRClass true =
      (some (PMError.validationError (missingMethods incompleteOCRClass Kind.ocr)
        (requiredMethods Kind.ocr)), initState cfgEmpty) ∧
    ((register (initState cfgEmpty) "ocr" "mock" mockOCRClass true).1 = none ∧
     alookup (((register (initState cfgEmpty) "ocr" "mock" mockOCRClass
       true).2).registry Kind.ocr) "mock" = some mockOCRClass) :=
  ⟨⟨by decide, by decide, by decide⟩,
   (C6_register_validation (initState cfgEmpty) "ocr" "inc" Kind.ocr
     incompleteOCRClass (by decide)).1 (by decide),
   (C6_register_validation (initState cfgEmpty) "ocr" "mock" Kind.ocr
     mockOCRClass (by decide)).2 (by decide)⟩

/-- C7: switch on a valid kind with an unregistered name raises a
PluginLoadError carrying exactly the currently registered names for
that kind (the list list_available reports), with no state change;
switch on a kind outside the closed set raises the base
PluginManagerError, with no state change. -/
theorem C7_switch_error_reporting (s : ManagerState) (t n : String) :
    (∀ k, parseKind t = some k → alookup (s.registry k) n = none →
      switch s t n =
        (some (PMError.loadErrorNotRegistered t n (list_available s t)), s)) ∧
    (parseKind t = none →
      switch s t n =
        (some (PMError.managerError ("Invalid adapter type: " ++ t)), s)) := by
  constructor
  · intro k hp hr
    rw [switch_unregistered s t n k hp hr]
    simp [list_available, hp]
  · intro hp
    exact switch_invalid_kind s t n hp

/-- Witness for C7: with only mock registered, switching ocr to an
unknown name reports exactly the list with the single name mock; an
unknown kind draws the base error. -/
theorem C7_switch_error_reporting_witness :
    (parseKind "ocr" = some Kind.ocr ∧
     alookup (regMockState.registry Kind.ocr) "nope" = none ∧
     list_available regMockState "ocr" = ["mock"] ∧
     parseKind "bogus" = none) ∧
    switch regMockState "ocr" "nope" =
      (some (PMError.loadErrorNotRegistered "ocr" "nope"
        (list_available regMockState "ocr")), regMockState) ∧
    switch regMockState "bogus" "mock" =
      (some (PMError.managerError ("Invalid adapter type: " ++ "bogus")),
       regMockState) :=
  ⟨⟨by decide, by decide, by decide, by decide⟩,
   (C7_switch_error_reporting regMockState "ocr" "nope").1 Kind.ocr
     (by decide) (by decide),
   (C7_switch_error_reporting regMockState "bogus" "mock").2 (by decide)⟩

/-- C9: get_adapter_config raises the base PluginManagerError exactly
for a kind outside the closed set; for a valid kind it never raises and
returns the mapping stored at plugins.kind.name — the empty mapping when
any hop of that path is absent. The source returns dict(found), a fresh
dict whose entries this theorem equates with the stored mapping; only
the Python identity of the copy is outside the value-level embedding. -/
theorem C9_get_adapter_config_total (c : PMConfig) (t n : String) :
    (parseKind t = none →
      get_adapter_config c t n =
        Except.error (PMError.managerError ("Invalid adapter type: " ++ t))) ∧
    (∀ k, parseKind t = some k →
      get_adapter_config c t n =
        Except.ok ((alookup ((alookup (c.plugins.getD []) t).getD []) n).getD [])) := by
  constructor
  · intro hp
    simp [get_adapter_config, hp]
  · intro k hp
    cases hd : (alookup ((alookup (c.plugins.getD []) t).getD []) n).getD [] with
    | nil => simp [get_adapter_config, hp, hd]
    | cons a l => simp [get_adapter_config, hp, hd]

/-- Witness for C9: the sample tree yields the stored mapping for the
present entry, the empty mapping for an absent one, and the base error
for an invalid kind. -/
theorem C9_get_adapter_config_total_witness :
    (parseKind "bogus" = none ∧ parseKind "ocr" = some Kind.ocr) ∧
    get_adapter_config cfgSample "bogus" "x" =
      Except.error (PMError.managerError ("Invalid adapter type: " ++ "bogus")) ∧
    get_adapter_config cfgSample "ocr" "tesseract" =
      Except.ok ((alookup ((alookup (cfgSample.plugins.getD []) "ocr").getD [])
        "tesseract").getD []) ∧
    get_adapter_config cfgSample "ocr" "nope" =
      Except.ok ((alookup ((alookup (cfgSample.plugins.getD []) "ocr").getD [])
        "nope").getD []) :=
  ⟨⟨by decide, by decide⟩,
   (C9_get_adapter_config_total cfgSample "bogus" "x").1 (by decide),
   (C9_get_adapter_config_total cfgSample "ocr" "tesseract").2 Kind.ocr (by decide),
   (C9_get_adapter_config_total cfgSample "ocr" "nope").2 Kind.ocr (by decide)⟩

/-- C10: for a kind string outside the closed set, the read operations
return plainly — list_available the empty list and get_active none —
while register and switch raise the base PluginManagerError. Both read
operations are total functions of the embedding (they raise on no input
whatever). -/
theorem C10_reads_never_raise (s : ManagerState) (t : String)
    (hp : parseKind t = none) :
    list_available s t = [] ∧ get_active s t = none ∧
    (∀ n cls v, register s t n cls v =
      (some (PMError.managerError ("Invalid adapter type: " ++ t)), s)) ∧
    (∀ n, switch s t n =
      (some (PMError.managerError ("Invalid adapter type: " ++ t)), s)) := by
  refine ⟨by simp [list_available, hp], by simp [get_active, hp], ?_, ?_⟩
  · intro n cls v
    simp [register, hp]
  · intro n
    exact switch_invalid_kind s t n hp

/-- Witness for C10 at the unknown kind string bogus on a populated
state. -/
theorem C10_reads_never_raise_witness :
    parseKind "bogus" = none ∧
    (list_available regMockState "bogus" = [] ∧
     get_active regMockState "bogus" = none ∧
     register regMockState "bogus" "mock" mockOCRClass true =
       (some (PMError.managerError ("Invalid adapter type: " ++ "bogus")),
        regMockState) ∧
     switch regMockState "bogus" "mock" =
       (some (PMError.managerError ("Invalid adapter type: " ++ "bogus")),
        regMockState)) :=
  ⟨by decide,
   (C10_reads_never_raise regMockState "bogus" (by decide)).1,
   (C10_reads_never_raise regMockState "bogus" (by decide)).2.1,
   (C10_reads_never_raise regMockState "bogus" (by decide)).2.2.1 "mock"
     mockOCRClass true,
   (C10_reads_never_raise regMockState "bogus" (by decide)).2.2.2 "mock"⟩

/-- State for the C1 counterexample: mockOCRClass registered and
activated under (ocr, m), then the registration overwritten by
altOCRClass. -/
def reregState : ManagerState :=
  (register ((switch ((register (initState cfgEmpty) "ocr" "m" mockOCRClass
    true).2) "ocr" "m").2) "ocr" "m" altOCRClass true).2

/-- C1 as stated is false: register a class, switch to it (caching an
instance), re-register a different class under the same (kind, name),
and switch again — the switch succeeds but get_active returns the
cached instance of the old class, not an instance of the class now
registered under (kind, name). -/
theorem C1_counterexample :
    (switch reregState "ocr" "m").1 = none ∧
    alookup (reregState.registry Kind.ocr) "m" = some altOCRClass ∧
    (get_active ((switch reregState "ocr" "m").2) "ocr").map Instance.classId
      = some mockOCRClass.classId ∧
    mockOCRClass.classId ≠ altOCRClass.classId := by
  refine ⟨?_, by decide, by decide, by decide⟩
  decide

/-- C1 amended: after a successful switch(kind, name), get_active(kind)
returns an instance of the class registered under (kind, name),
provided any instance already cached for (kind, name) was constructed
from that same class — which is always the case when (kind, name) has
not been re-registered with a different class since the instance was
constructed. -/
theorem C1_active_class_matches (s : ManagerState) (t n : String) (k : Kind)
    (cls : AdapterClass)
    (hp : parseKind t = some k)
    (hr : alookup (s.registry k) n = some cls)
    (hcache : Option.all (fun i => i.classId == cls.classId)
      (alookup (s.instances k) n) = true)
    (h : (switch s t n).1 = none) :
    ∃ i, get_active ((switch s t n).2) t = some i ∧ i.classId = cls.classId := by
  cases hc : alookup (s.instances k) n with
  | some inst =>
    refine ⟨inst, ?_, ?_⟩
    · rw [switch_cached s t n k cls inst hp hr hc]
      simp [get_active, hp, updKind_same]
    · rw [hc] at hcache
      simpa [Option.all] using hcache
  | none =>
    cases he : cls.initException with
    | some exc =>
      rw [switch_construct_fail s t n k cls exc hp hr hc he] at h
      simp at h
    | none =>
      refine ⟨{ instId := s.nextId, classId := cls.classId }, ?_, rfl⟩
      rw [switch_construct_ok s t n k cls hp hr hc he]
      simp [get_active, hp, updKind_same]

/-- Witness for the amended C1 at the state with mock registered and no
cached instance. -/
theorem C1_active_class_matches_witness :
    (parseKind "ocr" = some Kind.ocr ∧
     alookup (regMockState.registry Kind.ocr) "mock" = some mockOCRClass ∧
     Option.all (fun i => i.classId == mockOCRClass.classId)
       (alookup (regMockState.instances Kind.ocr) "mock") = true ∧
     (switch regMockState "ocr" "mock").1 = none) ∧
    (∃ i, get_active ((switch regMockState "ocr" "mock").2) "ocr" = some i ∧
      i.classId = mockOCRClass.classId) :=
  ⟨⟨by decide, by decide, by decide, by decide⟩,
   C1_active_class_matches regMockState "ocr" "mock" Kind.ocr mockOCRClass
     (by decide) (by decide) (by decide) (by decide)⟩

/-- C2: a successful switch can always be repeated, the repeat succeeds
and get_active yields the identical instance (instance identity is the
instId tag, fresh per construction); and after an interposed successful
switch to any other name, switching back succeeds and yields the
instance identical to the one active after the first call — instances
are cached per (kind, name) and reused, never reconstructed. -/
theorem C2_singleton_reuse (s : ManagerState) (t n : String)
    (h : (switch s t n).1 = none) :
    ((switch ((switch s t n).2) t n).1 = none ∧
     get_active ((switch ((switch s t n).2) t n).2) t =
       get_active ((switch s t n).2) t) ∧
    (∀ b, (switch ((switch s t n).2) t b).1 = none →
      (switch ((switch ((switch s t n).2) t b).2) t n).1 = none ∧
      get_active ((switch ((switch ((switch s t n).2) t b).2) t n).2) t =
        get_active ((switch s t n).2) t) := by
  obtain ⟨k, cls, inst, hp, hr, hcache1, hact1, hreg1, _, _⟩ :=
    switch_ok_spec s t n h
  simp only [get_active, hp] at hact1
  have hr1 : alookup (((switch s t n).2).registry k) n = some cls := by
    rw [hreg1]
    exact hr
  constructor
  · rw [switch_cached ((switch s t n).2) t n k cls inst hp hr1 hcache1]
    simp [get_active, hp, updKind_same, hact1]
  · intro b hb
    obtain ⟨k2, cls2, inst2, hp2, _, _, _, hreg2, _, hpres2⟩ :=
      switch_ok_spec ((switch s t n).2) t b hb
    have hk2 : k = k2 := by
      rw [hp] at hp2
      exact (Option.some.injEq _ _).mp hp2
    subst hk2
    have hr2 : alookup ((((switch ((switch s t n).2) t b).2)).registry k) n
        = some cls := by
      rw [hreg2]
      exact hr1
    have hc2 : alookup ((((switch ((switch s t n).2) t b).2)).instances k) n
        = some inst := hpres2 k n inst hcache1
    rw [switch_cached ((switch ((switch s t n).2) t b).2) t n k cls inst hp
      hr2 hc2]
    simp [get_active, hp, updKind_same, hact1]

/-- Witness for C2: register mock and alt, switch to mock, then mock
again, and mock after an interposed switch to alt. -/
theorem C2_singleton_reuse_witness :
    ((switch regMockAltState "ocr" "mock").1 = none ∧
     (switch ((switch regMockAltState "ocr" "mock").2) "ocr" "alt").1 = none) ∧
    ((switch ((switch regMockAltState "ocr" "mock").2) "ocr" "mock").1 = none ∧
     get_active ((switch ((switch regMockAltState "ocr" "mock").2) "ocr"
       "mock").2) "ocr" =
       get_active ((switch regMockAltState "ocr" "mock").2) "ocr") ∧
    ((switch ((switch ((switch regMockAltState "ocr" "mock").2) "ocr"
       "alt").2) "ocr" "mock").1 = none ∧
     get_active ((switch ((switch ((switch regMockAltState "ocr" "mock").2)
       "ocr" "alt").2) "ocr" "mock").2) "ocr" =
       get_active ((switch regMockAltState "ocr" "mock").2) "ocr") :=
  ⟨⟨by decide, by decide⟩,
   (C2_singleton_reuse regMockAltState "ocr" "mock" (by decide)).1,
   (C2_singleton_reuse regMockAltState "ocr" "mock" (by decide)).2 "alt"
     (by decide)⟩

/-- The state a load attempt leaves behind, whichever way it ended. -/
def attemptState : LoadAttempt → ManagerState
  | LoadAttempt.ok _ s => s
  | LoadAttempt.fail _ s => s

theorem register_history (s : ManagerState) (t n : String)
    (cls : AdapterClass) (v : Bool) :
    ((register s t n cls v).2).switchHistory = s.switchHistory := by
  cases hp : parseKind t with
  | none => simp [register, hp]
  | some k =>
    cases hv : (if v then validateProtocol cls k else none) with
    | none => simp [register, hp, hv]
    | some e => simp [register, hp, hv]

theorem load_attempt_history (s : ManagerState) (env : ModuleEnv) (k : Kind)
    (t n : String) (ar : Bool) :
    (attemptState (load_attempt s env k t n ar)).switchHistory =
      s.switchHistory := by
  unfold load_attempt
  cases hm : env (moduleNameFor t n) with
  | none => simp [attemptState, hm]
  | some m =>
    cases hf : findAdapterClass m k with
    | none => simp [attemptState, hm, hf]
    | some cls =>
      cases hi : cls.initException with
      | some e => simp [attemptState, hm, hf, hi]
      | none =>
        cases ar with
        | false => simp [attemptState, hm, hf, hi]
        | true =>
          have hreg := register_history { s with nextId := s.nextId + 1 } t n
            cls true
          rcases hr2 : register { s with nextId := s.nextId + 1 } t n cls true
            with ⟨rerr, rs⟩
          rw [hr2] at hreg
          simp only [Prod.snd] at hreg
          cases rerr with
          | none => simp [attemptState, hm, hf, hi, hr2, hreg]
          | some e => simp [attemptState, hm, hf, hi, hr2, hreg]

theorem load_adapter_history (s : ManagerState) (env : ModuleEnv)
    (t n : String) (ar fb : Bool) :
    ((load_adapter s env t n ar fb).2).switchHistory = s.switchHistory := by
  unfold load_adapter
  cases hp : parseKind t with
  | none => simp [hp]
  | some k =>
    have e1 := load_attempt_history s env k t n ar
    cases h1 : load_attempt s env k t n ar with
    | ok i s1 =>
      rw [h1] at e1
      simp only [attemptState] at e1
      simp [hp, h1, e1]
    | fail m s1 =>
      rw [h1] at e1
      simp only [attemptState] at e1
      have e2 := load_attempt_history s1 env k t "mock" ar
      by_cases hfb : fb = true ∧ n ≠ "mock"
      · cases h2 : load_attempt s1 env k t "mock" ar with
        | ok i2 s2 =>
          rw [h2] at e2
          simp only [attemptState] at e2
          simp [hp, h1, hfb, h2, e2, e1]
        | fail m2 s2 =>
          rw [h2] at e2
          simp only [attemptState] at e2
          simp [hp, h1, hfb, h2, e2, e1]
      · simp [hp, h1, hfb, e1]

/-- C4 as stated is false on two counts: the first switch for a kind
(from an empty active slot) succeeds but appends no event, and a switch
that fails at construction while a previous adapter is active does
append one (the event is recorded in the cleanup phase, before
construction is attempted). -/
theorem C4_counterexample :
    ((switch regMockState "ocr" "mock").1 = none ∧
     ((switch regMockState "ocr" "mock").2).switchHistory = []) ∧
    ((switch activeMockState "ocr" "bad").1 =
       some (PMError.loadErrorInstantiation "ocr" "bad" "boom") ∧
     activeMockState.switchHistory = [] ∧
     ((switch activeMockState "ocr" "bad").2).switchHistory.length = 1) := by
  refine ⟨⟨by decide, by decide⟩, by decide, by decide, by decide⟩

/-- C4 amended: a switch that passes the registration check — whether it
then succeeds or fails at construction — appends exactly one SwitchEvent
when the kind's active slot was occupied before the call, and none when
it was empty (so a successful first switch appends no event); a switch
failing earlier (invalid kind or unregistered name) leaves the state
untouched; and no other operation (register, load_adapter) ever appends
to the switch history. -/
theorem C4_switch_event_accounting :
    (∀ s t n k cls, parseKind t = some k →
      alookup (s.registry k) n = some cls →
      ((switch s t n).2).switchHistory = s.switchHistory ++
        (match s.active k with
         | none => []
         | some prev =>
           [{ type := t, fromName := findInstanceName s k prev, toName := n,
              timestamp := s.clock }])) ∧
    (∀ s t n, parseKind t = none → (switch s t n).2 = s) ∧
    (∀ s t n k, parseKind t = some k → alookup (s.registry k) n = none →
      (switch s t n).2 = s) ∧
    (∀ s t n cls v, ((register s t n cls v).2).switchHistory =
      s.switchHistory) ∧
    (∀ s env t n ar fb, ((load_adapter s env t n ar fb).2).switchHistory =
      s.switchHistory) := by
  refine ⟨?_, ?_, ?_, ?_, ?_⟩
  · intro s t n k cls hp hr
    rw [switch_history_eq s t n k cls hp hr, cleanupPhase_history]
  · intro s t n hp
    rw [switch_invalid_kind s t n hp]
  · intro s t n k hp hr
    rw [switch_unregistered s t n k hp hr]
  · exact register_history
  · exact load_adapter_history

/-- Witness for the amended C4: switching mock to mock on an occupied
slot appends exactly the one event the amended claim describes. -/
theorem C4_switch_event_accounting_witness :
    (parseKind "ocr" = some Kind.ocr ∧
     alookup (activeMockState.registry Kind.ocr) "mock" = some mockOCRClass) ∧
    ((switch activeMockState "ocr" "mock").2).switchHistory =
      activeMockState.switchHistory ++
        (match activeMockState.active Kind.ocr with
         | none => []
         | some prev =>
           [{ type := "ocr",
              fromName := findInstanceName activeMockState Kind.ocr prev,
              toName := "mock", timestamp := activeMockState.clock }]) :=
  ⟨⟨by decide, by decide⟩,
   C4_switch_event_accounting.1 activeMockState "ocr" "mock" Kind.ocr
     mockOCRClass (by decide) (by decide)⟩

/-- State after one dynamic load of (ocr, mock). -/
def c5StateOne : ManagerState :=
  (load_adapter (initState cfgEmpty) envMockOnly "ocr" "mock" true true).2

/-- State after a second dynamic load of (ocr, mock). -/
def c5StateTwo : ManagerState :=
  (load_adapter c5StateOne envMockOnly "ocr" "mock" true true).2

/-- C5 as stated is false: load_adapter never consults the instance
cache, so a second successful load for the same (kind, name) constructs
a second instance (a fresh identity) and replaces the cache entry. -/
theorem C5_counterexample :
    (load_adapter (initState cfgEmpty) envMockOnly "ocr" "mock" true true).1 =
      Except.ok { instId := 0, classId := 7 } ∧
    alookup (c5StateOne.instances Kind.ocr) "mock" =
      some { instId := 0, classId := 7 } ∧
    (load_adapter c5StateOne envMockOnly "ocr" "mock" true true).1 =
      Except.ok { instId := 1, classId := 7 } ∧
    alookup (c5StateTwo.instances Kind.ocr) "mock" =
      some { instId := 1, classId := 7 } :=
  ⟨rfl, by decide, rfl, by decide⟩

/-- C5 amended, restricted to switch as the counterexample forces:
switch never removes or replaces an existing cache entry, and a switch
to an already-cached (kind, name) constructs nothing (the allocation
counter is untouched) and activates exactly the cached instance.
load_adapter, by contrast, constructs a fresh instance and overwrites
the cache entry on every successful auto-registering call. -/
theorem C5_switch_never_reconstructs :
    (∀ s t n k' n' i, alookup (s.instances k') n' = some i →
      alookup (((switch s t n).2).instances k') n' = some i) ∧
    (∀ s t n k cls i, parseKind t = some k →
      alookup (s.registry k) n = some cls →
      alookup (s.instances k) n = some i →
      (switch s t n).1 = none ∧ ((switch s t n).2).nextId = s.nextId ∧
      get_active ((switch s t n).2) t = some i) := by
  constructor
  · intro s t n k' n' i hi
    cases hp : parseKind t with
    | none =>
      rw [switch_invalid_kind s t n hp]
      exact hi
    | some k =>
      cases hr : alookup (s.registry k) n with
      | none =>
        rw [switch_unregistered s t n k hp hr]
        exact hi
      | some cls =>
        cases hc : alookup (s.instances k) n with
        | some inst =>
          rw [switch_cached s t n k cls inst hp hr hc]
          simpa [cleanupPhase_instances] using hi
        | none =>
          cases he : cls.initException with
          | some exc =>
            rw [switch_construct_fail s t n k cls exc hp hr hc he]
            simpa [cleanupPhase_instances] using hi
          | none =>
            rw [switch_construct_ok s t n k cls hp hr hc he]
            by_cases hk : k' = k
            · simp only [updKind, hk, if_pos]
              rw [alookup_ainsert]
              have hne : ¬(n' = n) := by
                intro hh
                rw [hh, hk] at hi
                rw [hi] at hc
                exact Option.noConfusion hc
              rw [hk] at hi
              simp [hne, hi]
            · simp only [updKind, hk, if_neg, ite_false]
              exact hi
  · intro s t n k cls i hp hr hc
    rw [switch_cached s t n k cls i hp hr hc]
    refine ⟨rfl, by simp [cleanupPhase_nextId], ?_⟩
    simp [get_active, hp, updKind_same]

/-- Witness for the amended C5: on the state with mock active and
cached, a further switch to mock constructs nothing and preserves the
cache entry. -/
theorem C5_switch_never_reconstructs_witness :
    (parseKind "ocr" = some Kind.ocr ∧
     alookup (activeMockState.registry Kind.ocr) "mock" = some mockOCRClass ∧
     alookup (activeMockState.instances Kind.ocr) "mock" =
       some { instId := 0, classId := 7 }) ∧
    alookup (((switch activeMockState "ocr" "mock").2).instances Kind.ocr)
      "mock" = some { instId := 0, classId := 7 } ∧
    ((switch activeMockState "ocr" "mock").1 = none ∧
     ((switch activeMockState "ocr" "mock").2).nextId =
       activeMockState.nextId ∧
     get_active ((switch activeMockState "ocr" "mock").2) "ocr" =
       some { instId := 0, classId := 7 }) :=
  ⟨⟨by decide, by decide, by decide⟩,
   C5_switch_never_reconstructs.1 activeMockState "ocr" "mock" Kind.ocr
     "mock" { instId := 0, classId := 7 } (by decide),
   C5_switch_never_reconstructs.2 activeMockState "ocr" "mock" Kind.ocr
     mockOCRClass { instId := 0, classId := 7 } (by decide) (by decide)
     (by decide)⟩

/-- C8: when the primary attempt of load_adapter (name different from
mock, fallback enabled) fails — import error, instantiation error, or
any other failure the source's handlers catch — the call behaves
exactly as one further call for mock with fallback disabled: a single
hop. If the mock attempt fails in turn (here: its module does not
import), the resulting PluginLoadError propagates — there is no second
hop, and load_adapter is a total function of the embedding, so no
infinite fallback loop exists. If the mock attempt succeeds, the call
returns the freshly constructed instance of the class selected from the
mock module. -/
theorem C8_single_fallback_hop (s s1 : ManagerState) (env : ModuleEnv)
    (t n : String) (k : Kind) (ar : Bool) (msg : String)
    (hp : parseKind t = some k)
    (hn : n ≠ "mock")
    (hf : load_attempt s env k t n ar = LoadAttempt.fail msg s1) :
    (load_adapter s env t n ar true = load_adapter s1 env t "mock" ar false) ∧
    (env (moduleNameFor t "mock") = none →
      load_adapter s env t n ar true =
        (Except.error (PMError.loadError
          ("Failed to import " ++ moduleNameFor t "mock")), s1)) ∧
    (∀ m mcls, env (moduleNameFor t "mock") = some m →
      findAdapterClass m k = some mcls →
      mcls.initException = none →
      missingMethods mcls k = [] →
      (load_adapter s env t n ar true).1 =
        Except.ok { instId := s1.nextId, classId := mcls.classId }) := by
  have hop := load_adapter_fallback_hop s s1 env t n k ar msg hp hn hf
  refine ⟨hop, ?_, ?_⟩
  · intro hm
    rw [hop]
    simp [load_adapter, hp, load_attempt_import_fail s1 env k t "mock" ar hm]
  · intro m mcls hm hfind hinit hval
    obtain ⟨s2, hok⟩ := load_attempt_ok s1 env k t "mock" ar m mcls hp hm
      hfind hinit hval
    rw [hop]
    simp [load_adapter, hp, hok]

/-- Witness for C8: with only the mock module importable, loading
tesseract falls back to mock and returns the mock instance; with
nothing importable, the mock attempt's load error propagates. -/
theorem C8_single_fallback_hop_witness :
    (parseKind "ocr" = some Kind.ocr ∧
     load_attempt (initState cfgEmpty) envMockOnly Kind.ocr "ocr" "tesseract"
       true = LoadAttempt.fail
         ("Failed to import " ++ moduleNameFor "ocr" "tesseract")
         (initState cfgEmpty) ∧
     envMockOnly (moduleNameFor "ocr" "mock") =
       some { classes := [mockOCRClass] } ∧
     findAdapterClass { classes := [mockOCRClass] } Kind.ocr =
       some mockOCRClass ∧
     envNothing (moduleNameFor "ocr" "mock") = none) ∧
    (load_adapter (initState cfgEmpty) envMockOnly "ocr" "tesseract" true
       true).1 = Except.ok { instId := 0, classId := mockOCRClass.classId } ∧
    load_adapter (initState cfgEmpty) envNothing "ocr" "tesseract" true true =
      (Except.error (PMError.loadError
        ("Failed to import " ++ moduleNameFor "ocr" "mock")),
       initState cfgEmpty) :=
  ⟨⟨by decide, by rfl, by rfl, by decide, by rfl⟩,
   (C8_single_fallback_hop (initState cfgEmpty) (initState cfgEmpty)
     envMockOnly "ocr" "tesseract" Kind.ocr true
     ("Failed to import " ++ moduleNameFor "ocr" "tesseract")
     (by decide) (by decide) (by rfl)).2.2
     { classes := [mockOCRClass] } mockOCRClass (by rfl) (by decide)
     (by decide) (by decide),
   (C8_single_fallback_hop (initState cfgEmpty) (initState cfgEmpty)
     envNothing "ocr" "tesseract" Kind.ocr true
     ("Failed to import " ++ moduleNameFor "ocr" "tesseract")
     (by decide) (by decide) (by rfl)).2.1 (by rfl)⟩

end Indexao
